import Mathlib

/-!
Verification development for the r-pixi-venv editor extension
(source: src/extension.ts).  The TypeScript source is shallowly embedded:
pure string manipulation becomes Lean functions on `String`/`List Char`,
the stateful preview supervisor becomes explicit state passing over a
`PreviewState`, and the filesystem/configuration side effects of the
setup path become explicit effect lists.
-/

/-! Section: Output sanitization (src/extension.ts, lines 7-9 and 189-202, 256-258)

`stripAnsi` models the JavaScript
`str.replace(/[\u001b\u009b][[()#;?]*(?:[0-9]{1,4}(?:;[0-9]{0,4})*)?[0-9A-ORZcf-nqry=><]/g, '')`
as a left-to-right scan deleting every (leftmost, non-overlapping) match
of that regular expression.  `cleanNonAscii` models
`.replace(/[^\x00-\x7F]/g, " ")`, which replaces every character above
U+007F by a single space.
-/

/-- Membership in the character class `[[()#;?]` of the ANSI regex. -/
def isAnsiInter (c : Char) : Bool :=
  c == '[' || c == '(' || c == ')' || c == '#' || c == ';' || c == '?'

/-- Membership in the final character class `[0-9A-ORZcf-nqry=><]` of the ANSI regex. -/
def isAnsiFinal (c : Char) : Bool :=
  (48 ≤ c.toNat && c.toNat ≤ 57)      -- 0-9
  || (65 ≤ c.toNat && c.toNat ≤ 79)   -- A-O
  || c == 'R' || c == 'Z' || c == 'c'
  || (102 ≤ c.toNat && c.toNat ≤ 110) -- f-n
  || c == 'q' || c == 'r' || c == 'y'
  || c == '=' || c == '>' || c == '<'

/-- Membership in `[0-9]`. -/
def isDigitChar (c : Char) : Bool :=
  48 ≤ c.toNat && c.toNat ≤ 57

/-- Number of leading decimal digits of a character list. -/
def countLeadingDigits : List Char → Nat
  | [] => 0
  | c :: cs => if isDigitChar c then countLeadingDigits cs + 1 else 0

/-- Match the final character class of the ANSI regex, returning the rest. -/
def matchFinal : List Char → Option (List Char)
  | [] => none
  | c :: cs => if isAnsiFinal c then some cs else none

/-- First-some choice, used to express the backtracking order of the regex engine. -/
def oor (a b : Option (List Char)) : Option (List Char) :=
  match a with
  | some r => some r
  | none => b

/-- Match `(?:;[0-9]\x7b0,4\x7d)*[0-9A-ORZcf-nqry=><]` with the greedy,
backtracking semantics of the JavaScript engine: each `;`-group first tries
the longest digit run (at most 4), and on failure of the continuation
gives digits back one at a time; when no further group can be taken, the
final character class must match.  The fuel argument bounds the number of
star iterations; each iteration consumes at least the `;`, so a fuel equal
to the list length is always sufficient. -/
def matchStarFinal : Nat → List Char → Option (List Char)
  | 0, cs => matchFinal cs
  | fuel + 1, cs =>
    match cs with
    | ';' :: r =>
      let d := countLeadingDigits r
      oor (if 4 ≤ d then matchStarFinal fuel (r.drop 4) else none)
        (oor (if 3 ≤ d then matchStarFinal fuel (r.drop 3) else none)
          (oor (if 2 ≤ d then matchStarFinal fuel (r.drop 2) else none)
            (oor (if 1 ≤ d then matchStarFinal fuel (r.drop 1) else none)
              (oor (matchStarFinal fuel r) (matchFinal cs)))))
    | _ => matchFinal cs

/-- Match `(?:[0-9]\x7b1,4\x7d(?:;[0-9]\x7b0,4\x7d)*)?[0-9A-ORZcf-nqry=><]`
with greedy, backtracking semantics: the optional digit group is tried with
4 down to 1 leading digits, and if every attempt fails the group matches
empty and the final character class must match directly. -/
def matchGroupFinal (fuel : Nat) (cs : List Char) : Option (List Char) :=
  let d := countLeadingDigits cs
  oor (if 4 ≤ d then matchStarFinal fuel (cs.drop 4) else none)
    (oor (if 3 ≤ d then matchStarFinal fuel (cs.drop 3) else none)
      (oor (if 2 ≤ d then matchStarFinal fuel (cs.drop 2) else none)
        (oor (if 1 ≤ d then matchStarFinal fuel (cs.drop 1) else none)
          (matchFinal cs))))

/-- Match the whole ANSI regex at the head of the list, returning the
remainder after the match.  The introducer is `\u001b` or `\u009b`; the
following class `[[()#;?]*` is consumed greedily without backtracking,
which is faithful because no character of that class is a digit or a
member of the final class, so giving one back can never let the rest of
the pattern match. -/
def matchAnsiAt : List Char → Option (List Char)
  | [] => none
  | c :: rest =>
    if c.toNat == 0x1b || c.toNat == 0x9b then
      let t := rest.dropWhile isAnsiInter
      matchGroupFinal t.length t
    else
      none

/-- Left-to-right scan of `replace(..., '')`: delete each leftmost match and
continue after it; characters that start no match are kept.  The fuel is the
length of the list; every step consumes at least one character. -/
def stripAnsiGo : Nat → List Char → List Char
  | 0, l => l
  | _ + 1, [] => []
  | fuel + 1, c :: rest =>
    match matchAnsiAt (c :: rest) with
    | some rem => stripAnsiGo fuel rem
    | none => c :: stripAnsiGo fuel rest

/-- `stripAnsi` from src/extension.ts lines 7-9. -/
def stripAnsi (s : String) : String :=
  String.mk (stripAnsiGo s.data.length s.data)

/-- The `.replace(/[^\x00-\x7F]/g, " ")` step: every character above U+007F
becomes a space.  (JavaScript operates on UTF-16 units; for the characters
relevant here, below U+10000, one unit is one scalar.) -/
def cleanNonAscii (s : String) : String :=
  String.mk (s.data.map fun c => if c.toNat ≤ 0x7F then c else ' ')

/-- Sanitization applied to stdout chunks of the render/install commands
(src/extension.ts line 192): ANSI stripping only. -/
def renderStdoutChunkToLog (s : String) : String :=
  stripAnsi s

/-- Sanitization applied to stderr chunks of the render/install commands
(src/extension.ts line 199): ANSI stripping, then non-ASCII replacement. -/
def renderStderrChunkToLog (s : String) : String :=
  cleanNonAscii (stripAnsi s)

/-- Sanitization applied to every preview output chunk
(src/extension.ts line 258): ANSI stripping, then non-ASCII replacement. -/
def previewChunkToLog (s : String) : String :=
  cleanNonAscii (stripAnsi s)

/-! Section: Loopback URL detection (src/extension.ts line 263)

Models `cleanedStr.match(/http:\/\/(localhost|127\.0\.0\.1):\d+/)`:
the first (leftmost) match of the pattern, with `\d+` greedy. -/

/-- Strip a literal from the head of a list, if present. -/
def stripLit : List Char → List Char → Option (List Char)
  | [], cs => some cs
  | _ :: _, [] => none
  | l :: ls, c :: cs => if l == c then stripLit ls cs else none

/-- After the host part has matched, match `:\d+` greedily and return the
full matched text (`pre` is the text matched so far). -/
def matchPortAfter (pre : List Char) : List Char → Option (List Char)
  | ':' :: r =>
    let ds := r.takeWhile isDigitChar
    if ds.isEmpty then none else some (pre ++ ':' :: ds)
  | _ => none

/-- Match `http://(localhost|127\.0\.0\.1):\d+` at the head of the list,
returning the matched text. -/
def matchUrlAt (cs : List Char) : Option (List Char) :=
  match stripLit "http://".data cs with
  | none => none
  | some r1 =>
    match stripLit "localhost".data r1 with
    | some r2 => matchPortAfter "http://localhost".data r2
    | none =>
      match stripLit "127.0.0.1".data r1 with
      | some r2 => matchPortAfter "http://127.0.0.1".data r2
      | none => none

/-- Leftmost match of the loopback URL pattern in a character list. -/
def findUrlL : List Char → Option (List Char)
  | [] => none
  | c :: rest =>
    match matchUrlAt (c :: rest) with
    | some m => some m
    | none => findUrlL rest

/-- `match[0]` of the loopback URL regex on a string, if any. -/
def findLoopbackUrl (s : String) : Option String :=
  (findUrlL s.data).map String.mk

/-! Section: Preview process supervisor (src/extension.ts, lines 207-293 and 51-56)

The module-level variable `previewProcess : ChildProcess | null` is
modelled by `PreviewState.tracked : Option Nat`, a process handle being a
process id.  `nextPid` supplies the id for the next spawn.  The observable
actions of the supervisor (kill signals, spawns, log lines) are emitted as
an effect list, in program order. -/

/-- State of the preview supervisor: the tracked process handle, if any,
and the id the next spawn will receive. -/
structure PreviewState where
  tracked : Option Nat
  nextPid : Nat
deriving DecidableEq

/-- Observable actions of the preview supervisor. -/
inductive PreviewEffect
  | logLine (s : String)
  | kill (pid : Nat) (signal : String)
  | spawnProc (pid : Nat)
deriving DecidableEq

/-- Lines 236-240: if a preview process is tracked, log, send it SIGINT and
clear the tracked handle. -/
def killExisting (s : PreviewState) : PreviewState × List PreviewEffect :=
  match s.tracked with
  | some pid =>
    ({ s with tracked := none },
     [.logLine "Killing existing preview process...", .kill pid "SIGINT"])
  | none => (s, [])

/-- Lines 249-252: spawn the new preview process and track its handle. -/
def spawnPreview (s : PreviewState) : PreviewState × List PreviewEffect :=
  ({ tracked := some s.nextPid, nextPid := s.nextPid + 1 }, [.spawnProc s.nextPid])

/-- The body of `previewQuartoDocument` (lines 207-252) as far as the
tracked handle is concerned.  `guardsPass` stands for the early-return
guards (active editor, document type, workspace folder, wrapper present,
lines 208-234): when any guard fails the function returns without touching
the tracked handle. -/
def previewRequest (guardsPass : Bool) (s : PreviewState) :
    PreviewState × List PreviewEffect :=
  if guardsPass then
    let k := killExisting s
    let sp := spawnPreview k.1
    (sp.1, k.2 ++ sp.2)
  else
    (s, [])

/-- The `close` handler (lines 283-288): log the exit code and clear the
module-level handle (the handler tests `if (previewProcess)` and then
assigns `null`, so the result is `none` whatever was tracked). -/
def previewOnClose (s : PreviewState) (code : Int) :
    PreviewState × List PreviewEffect :=
  ({ s with tracked := none },
   [.logLine ("\n[Preview process exited with code " ++ toString code ++ "]\n")])

/-- The `error` handler (lines 290-292): log the message; the tracked
handle is not modified. -/
def previewOnError (s : PreviewState) (msg : String) :
    PreviewState × List PreviewEffect :=
  (s, [.logLine ("\n[Preview process error: " ++ msg ++ "]\n")])

/-- `deactivate` (lines 51-56): if a preview process is tracked, SIGINT it
and clear the handle. -/
def deactivatePreview (s : PreviewState) : PreviewState × List PreviewEffect :=
  match s.tracked with
  | some pid => ({ s with tracked := none }, [.kill pid "SIGINT"])
  | none => (s, [])

/-! Section: Preview output handling (src/extension.ts, lines 254-281)

`handleOutput` is attached to both stdout and stderr of one preview
process instance; the chunks of the merged stream are folded over an
`OutputState` whose `browserOpened` flag is the closure variable of
line 254, `logText` the output channel content contributed by this
instance, and `opens` the list of embedded-browser-open calls made. -/

/-- Per-instance output state of the preview process. -/
structure OutputState where
  browserOpened : Bool
  logText : String
  opens : List String
deriving DecidableEq

/-- State at the start of a preview process instance (line 254). -/
def initialOutputState : OutputState :=
  { browserOpened := false, logText := "", opens := [] }

/-- One invocation of `handleOutput` (lines 256-274): sanitize the chunk,
append it to the log, and if the browser has not been opened yet, scan the
sanitized chunk for a loopback URL; on a match, latch the flag, log the
detection line and issue one embedded-browser-open call. -/
def handleOutput (st : OutputState) (data : String) : OutputState :=
  let cleaned := previewChunkToLog data
  let st1 := { st with logText := st.logText ++ cleaned }
  if st1.browserOpened then st1
  else
    match findLoopbackUrl cleaned with
    | some url =>
      { st1 with
        browserOpened := true,
        logText := st1.logText ++ "\n[Detected local server: " ++ url
          ++ ", opening inside VS Code...]\n" ++ "\n",
        opens := st1.opens ++ [url] }
    | none => st1

/-- The output chunks of one preview process instance, folded in stream
order from the instance's initial state. -/
def processChunks (chunks : List String) : OutputState :=
  chunks.foldl handleOutput initialOutputState

/-! Section: Setup path: data model and effects (src/extension.ts, lines 58-106, 350-516)

The filesystem and configuration side effects of
`setupPixiEnvironment` (per workspace folder), `createWrapperScripts` and
`configureWorkspaceSettings` are made explicit as an effect list in
program order.  Inputs that the code reads from the outside world
(existence of files, the outcome of `pixi info --json`, the host
platform) are fields of the input structures. -/

/-- Host platform as tested by the code (`process.platform`): `win32`,
`darwin`, or anything else (the code's final `else` branch). -/
inductive HostPlatform
  | win32
  | darwin
  | linux
deriving DecidableEq

/-- String form of the platform, for the log line of line 484. -/
def platformName : HostPlatform → String
  | .win32 => "win32"
  | .darwin => "darwin"
  | .linux => "linux"

/-- The `isWindows` test of lines 150, 226, 351, 483. -/
def isWindowsOf : HostPlatform → Bool
  | .win32 => true
  | _ => false

/-- `vscode.ConfigurationTarget` values used by `update`. -/
inductive ConfigTarget
  | global
  | workspace
  | workspaceFolder
deriving DecidableEq

/-- Observable side effects of the setup path, in program order. -/
inductive Effect
  | logLine (s : String)
  | mkdir (p : String)
  | fileWrite (p : String) (content : String)
  | chmod (p : String) (mode : Nat)
  | settingsUpdate (sect : String) (key : String) (value : String) (target : ConfigTarget)
  | infoMessage (s : String)
  | errorMessage (s : String)
deriving DecidableEq

/-- One record of `environments_info` in the `pixi info --json` output:
a `name` and an optional `prefix` field (`pfx` here; the JSON field may be
absent, and the code treats the empty string as absent too, via JavaScript
truthiness). -/
structure EnvRecord where
  name : String
  pfx : Option String
deriving DecidableEq

/-- The parsed `pixi info --json` object: an optional `environments_info`
array (the field may be absent from the JSON). -/
structure PixiInfo where
  environments_info : Option (List EnvRecord)
deriving DecidableEq

/-- Outcome of `getPixiInfo` (lines 462-480): the `exec` callback received
an error (rejection with the error message and captured stderr), the JSON
parse failed (rejection after logging the stdout), or the parse succeeded
(`none` models a JSON document that is `null` or not an object, which is
falsy at the `pixiInfo &&` test of line 75). -/
inductive InfoOutcome
  | execError (msg : String) (stderrTxt : String)
  | parseError (stdoutTxt : String) (msg : String)
  | ok (info : Option PixiInfo)
deriving DecidableEq

/-- JavaScript truthiness of the optional `prefix` string of line 77:
absent and empty are falsy. -/
def truthyStr : Option String → Bool
  | none => false
  | some s => !(s == "")

/-- Line 76: `environments_info.find(e => e.name === 'default') ||
environments_info[0]`, on a nonempty array `e :: es`. -/
def selectEnv (e : EnvRecord) (es : List EnvRecord) : EnvRecord :=
  match (e :: es).find? (fun r => r.name == "default") with
  | some r => r
  | none => e

/-- `path.join` with two segments.  The platform separator is modelled as
`/`; no claim depends on the separator character. -/
def pathJoin (a b : String) : String :=
  a ++ "/" ++ b

/-- Input of `createWrapperScripts` (line 350), together with the
filesystem facts it reads (`existsSync` at lines 355, 365, 396). -/
structure WrapperInput where
  workspacePath : String
  envName : String
  pfx : String
  isWindows : Bool
  vscodeDirExists : Bool
  pixiTomlExists : Bool
  pixiActivateExists : Bool
deriving DecidableEq

/-- The three paths returned by `createWrapperScripts` (lines 455-459). -/
structure WrapperPaths where
  rPath : String
  rTermPath : String
  quartoPath : String
deriving DecidableEq

/-- The manifest chosen at line 365: `pixi.toml` when present, else
`pyproject.toml`. -/
def manifestChoice (w : WrapperInput) : String :=
  if w.pixiTomlExists then pathJoin w.workspacePath "pixi.toml"
  else pathJoin w.workspacePath "pyproject.toml"

/-- The `.vscode` directory of the workspace (line 352). -/
def vscodeDirOf (w : WrapperInput) : String :=
  pathJoin w.workspacePath ".vscode"

/-- Wrapper file extension (line 359). -/
def wrapperExtOf (w : WrapperInput) : String :=
  if w.isWindows then ".bat" else ".sh"

/-- Path of the R terminal wrapper (line 360). -/
def rTermWrapperPathOf (w : WrapperInput) : String :=
  pathJoin (vscodeDirOf w) ("rterm-pixi-wrapper" ++ wrapperExtOf w)

/-- Path of the Quarto wrapper (line 361). -/
def quartoWrapperPathOf (w : WrapperInput) : String :=
  pathJoin (vscodeDirOf w) ("quarto-pixi-wrapper" ++ wrapperExtOf w)

/-- Content of the conda shim written for reticulate compatibility
(lines 424-436). -/
def condaShimContent : String :=
  "#!/bin/sh\n# Minimal conda shim for reticulate compatibility.\n# reticulate calls: conda run --prefix <prefix> python -c \"import os; print(os.environ[\x27PATH\x27])\"\n# to resolve the activated PATH. Return prefix/bin prepended to PATH.\nPREFIX=\"\"\nfor arg in \"$@\"; do\n  [ \"$prev\" = \"--prefix\" ] || [ \"$prev\" = \"-p\" ] && PREFIX=$arg\n  prev=$arg\ndone\n[ -n \"$PREFIX\" ] && echo \"$\x7bPREFIX\x7d/bin:$\x7bPATH\x7d\" || echo \"$\x7bPATH\x7d\"\n"

/-- Content of the activate shim (lines 442-446). -/
def activateShimContent : String :=
  "#!/bin/sh\n# Minimal activate shim for reticulate compatibility (no-op for pixi envs).\n"

/-- Content of the project-level activation hook (line 397). -/
def pixiActivateContent : String :=
  "#!/bin/sh\n# Project-level pixi activation hook (intentionally empty)\n"

/-- `createWrapperScripts` (lines 350-460): effect list in program order
and the returned paths. -/
def createWrapperScripts (w : WrapperInput) : List Effect × WrapperPaths :=
  let vscodeDir := vscodeDirOf w
  let rTermWrapperPath := rTermWrapperPathOf w
  let quartoWrapperPath := quartoWrapperPathOf w
  let manifestPath := manifestChoice w
  let rTermScriptContent :=
    if w.isWindows then
      "@echo off\npixi run --manifest-path \"" ++ manifestPath ++ "\" -e " ++ w.envName
        ++ " R %*"
    else
      "#!/bin/sh\nexec pixi run --manifest-path \"" ++ manifestPath ++ "\" -e " ++ w.envName
        ++ " R \"$@\""
  let quartoScriptContent :=
    if w.isWindows then
      "@echo off\npixi run --manifest-path \"" ++ manifestPath ++ "\" -e " ++ w.envName
        ++ " quarto %*"
    else
      "#!/bin/sh\nexec pixi run --manifest-path \"" ++ manifestPath ++ "\" -e " ++ w.envName
        ++ " quarto \"$@\""
  let rBinPath :=
    if w.isWindows then pathJoin (pathJoin (pathJoin (pathJoin w.pfx "lib") "R") "bin") "R.exe"
    else pathJoin (pathJoin w.pfx "bin") "R"
  let pixiActivatePath := pathJoin w.workspacePath ".pixi-activate.sh"
  let effects :=
    (if w.vscodeDirExists then [] else [Effect.mkdir vscodeDir])
    ++ [Effect.fileWrite rTermWrapperPath rTermScriptContent,
        Effect.fileWrite quartoWrapperPath quartoScriptContent]
    ++ (if w.isWindows then []
        else [Effect.chmod rTermWrapperPath 0o755, Effect.chmod quartoWrapperPath 0o755])
    ++ (if w.pixiActivateExists then []
        else
          [Effect.fileWrite pixiActivatePath pixiActivateContent]
          ++ (if w.isWindows then [] else [Effect.chmod pixiActivatePath 0o755])
          ++ [Effect.logLine ("Created " ++ pixiActivatePath)])
    ++ (if w.isWindows then []
        else
          let envBin := pathJoin w.pfx "bin"
          let condaShimPath := pathJoin envBin "conda"
          let activateShimPath := pathJoin envBin "activate"
          [Effect.fileWrite condaShimPath condaShimContent,
           Effect.chmod condaShimPath 0o755,
           Effect.logLine ("Created conda shim: " ++ condaShimPath),
           Effect.fileWrite activateShimPath activateShimContent,
           Effect.chmod activateShimPath 0o755,
           Effect.logLine ("Created activate shim: " ++ activateShimPath)])
    ++ [Effect.logLine ("Created wrapper scripts in " ++ vscodeDir),
        Effect.logLine ("R binary path for r.rpath: " ++ rBinPath)]
  (effects,
   { rPath := rBinPath, rTermPath := rTermWrapperPath, quartoPath := quartoWrapperPath })

/-- `configureWorkspaceSettings` (lines 482-516): every `update` call uses
`vscode.ConfigurationTarget.Workspace`. -/
def configureWorkspaceSettings (p : HostPlatform)
    (rPath rTermPath quartoPath : String) : List Effect :=
  [Effect.logLine ("Configuring settings for platform: " ++ platformName p),
   Effect.logLine ("Calculated R binary path (r.rpath): " ++ rPath),
   Effect.logLine ("Calculated R term path  (r.rterm): " ++ rTermPath),
   Effect.logLine ("Calculated Quarto path  (quarto.path): " ++ quartoPath)]
  ++ (match p with
      | .win32 =>
        [Effect.settingsUpdate "r" "rpath.windows" rPath ConfigTarget.workspace,
         Effect.settingsUpdate "r" "rterm.windows" rTermPath ConfigTarget.workspace,
         Effect.logLine "Updated Windows R paths."]
      | .darwin =>
        [Effect.settingsUpdate "r" "rpath.mac" rPath ConfigTarget.workspace,
         Effect.settingsUpdate "r" "rterm.mac" rTermPath ConfigTarget.workspace,
         Effect.logLine "Updated macOS R paths."]
      | .linux =>
        [Effect.settingsUpdate "r" "rpath.linux" rPath ConfigTarget.workspace,
         Effect.settingsUpdate "r" "rterm.linux" rTermPath ConfigTarget.workspace,
         Effect.logLine "Updated Linux R paths."])
  ++ [Effect.settingsUpdate "quarto" "path" quartoPath ConfigTarget.workspace,
      Effect.logLine "Updated Quarto path.",
      Effect.logLine "Successfully applied settings to .vscode/settings.json."]

/-- Input of the per-folder body of `setupPixiEnvironment` (lines 65-105):
the folder, the filesystem facts it reads, the outcome of
`pixi info --json`, and the host platform. -/
structure FolderInput where
  folderPath : String
  folderName : String
  pixiTomlExists : Bool
  pyprojectTomlExists : Bool
  infoOutcome : InfoOutcome
  platform : HostPlatform
  vscodeDirExists : Bool
  pixiActivateExists : Bool
deriving DecidableEq

/-- The success branch of lines 79-88: log the detected prefix, create the
wrapper scripts, write the workspace settings, and show the information
message. -/
def successEffects (i : FolderInput) (env : EnvRecord) (pfxVal : String) : List Effect :=
  Effect.logLine ("Detected Pixi environment prefix: " ++ pfxVal) ::
  (let wp := createWrapperScripts
    { workspacePath := i.folderPath, envName := env.name, pfx := pfxVal,
      isWindows := isWindowsOf i.platform, vscodeDirExists := i.vscodeDirExists,
      pixiTomlExists := i.pixiTomlExists, pixiActivateExists := i.pixiActivateExists }
   wp.1
   ++ configureWorkspaceSettings i.platform wp.2.rPath wp.2.rTermPath wp.2.quartoPath
   ++ [Effect.infoMessage ("R and Quarto configured to use Pixi environment: " ++ env.name)])

/-- The per-folder body of `setupPixiEnvironment` (lines 65-105). -/
def setupFolder (i : FolderInput) : List Effect :=
  let checking :=
    Effect.logLine ("Checking for pixi.toml or pyproject.toml at: " ++ i.folderPath)
  if i.pixiTomlExists || i.pyprojectTomlExists then
    checking ::
    Effect.logLine ("Found Pixi manifest in " ++ i.folderName) ::
    Effect.logLine ("Executing \x27pixi info --json\x27 in " ++ i.folderPath) ::
    (match i.infoOutcome with
     | .execError msg stderrTxt =>
       [Effect.logLine ("Command execution error: " ++ msg),
        Effect.logLine ("Failed to setup Pixi environment. Error: " ++ msg)]
       ++ (if stderrTxt == "" then [] else [Effect.logLine ("Stderr: " ++ stderrTxt)])
       ++ [Effect.errorMessage "Failed to configure Pixi environment for R and Quarto. Check the \"R Pixi Venv\" output channel for details."]
     | .parseError stdoutTxt msg =>
       [Effect.logLine ("Failed to parse pixi info JSON. Stdout: " ++ stdoutTxt),
        Effect.logLine ("Failed to setup Pixi environment. Error: " ++ msg),
        Effect.errorMessage "Failed to configure Pixi environment for R and Quarto. Check the \"R Pixi Venv\" output channel for details."]
     | .ok none =>
       [Effect.logLine "Warning: Valid pixi info obtained, but no environments found."]
     | .ok (some pinfo) =>
       match pinfo.environments_info with
       | none =>
         [Effect.logLine "Warning: Valid pixi info obtained, but no environments found."]
       | some [] =>
         [Effect.logLine "Warning: Valid pixi info obtained, but no environments found."]
       | some (e :: es) =>
         let env := selectEnv e es
         if truthyStr env.pfx then
           successEffects i env (env.pfx.getD "")
         else
           [Effect.logLine ("Error: No prefix found for environment " ++ env.name)])
  else
    [checking, Effect.logLine ("No pixi.toml found in " ++ i.folderName)]

/-! Section: Render command construction (src/extension.ts, lines 166-168) -/

/-- The command line built by `renderQuartoDocument`:
`"wrapper" render "file"` plus, when a format is supplied, ` --to format`. -/
def renderCommand (wrapperPath docFileName : String) (format : Option String) : String :=
  let formatArg :=
    match format with
    | some f => " --to " ++ f
    | none => ""
  "\"" ++ wrapperPath ++ "\" render \"" ++ docFileName ++ "\"" ++ formatArg

/-! Section: Substring occurrence

Self-contained contiguous-occurrence predicates on character lists, used
to state that a command line does or does not contain a flag. -/

/-- `leadsWith p l` holds when `p` is an initial segment of `l`. -/
def leadsWith : List Char → List Char → Bool
  | [], _ => true
  | _ :: _, [] => false
  | p :: ps, c :: cs => p == c && leadsWith ps cs

/-- `occursInL p l` holds when `p` occurs contiguously somewhere in `l`. -/
def occursInL (p : List Char) : List Char → Bool
  | [] => leadsWith p []
  | c :: cs => leadsWith p (c :: cs) || occursInL p cs

/-- String form of `occursInL`. -/
def occursIn (p s : String) : Bool :=
  occursInL p.data s.data

/-! Section: Spec-shaped wrapper templates and effect predicates -/

/-- Modelled from the spec (section 6, "Generated wrapper scripts"): a
POSIX wrapper is a single fixed-argument re-invocation of the
environment-manager `run` subcommand with the manifest path and
environment name, followed by `"$@"` forwarding.  Used to compare with
the content built by `createWrapperScripts`. -/
def specPosixWrapper (m env tool : String) : String :=
  "#!/bin/sh\nexec pixi run --manifest-path \"" ++ m ++ "\" -e " ++ env
    ++ (" " ++ (tool ++ " \"$@\""))

/-- Modelled from the spec (section 6, "Generated wrapper scripts"): the
Windows-batch counterpart, with `%*` forwarding. -/
def specWinWrapper (m env tool : String) : String :=
  "@echo off\npixi run --manifest-path \"" ++ m ++ "\" -e " ++ env
    ++ (" " ++ (tool ++ " %*"))

/-- Effects that write to the filesystem. -/
def isWriteEffect : Effect → Bool
  | .fileWrite _ _ => true
  | .mkdir _ => true
  | .chmod _ _ => true
  | _ => false

/-- Effects that update editor configuration. -/
def isSettingsEffect : Effect → Bool
  | .settingsUpdate _ _ _ _ => true
  | _ => false

/-- An effect is harmless for claim C10 when it is not a configuration
update, or is one with workspace target. -/
def settingsTargetOk : Effect → Bool
  | .settingsUpdate _ _ _ ConfigTarget.workspace => true
  | .settingsUpdate _ _ _ _ => false
  | _ => true

/-- Concrete folder input: manifest present, one environment named
`default` whose prefix is the empty string (falsy). -/
def noPrefixFolderInput : FolderInput :=
  { folderPath := "/ws", folderName := "ws", pixiTomlExists := true,
    pyprojectTomlExists := false,
    infoOutcome := InfoOutcome.ok (some { environments_info := some [{ name := "default", pfx := some "" }] }),
    platform := HostPlatform.linux, vscodeDirExists := true, pixiActivateExists := true }

/-- Concrete folder input: neither manifest file exists. -/
def noManifestFolderInput : FolderInput :=
  { folderPath := "/ws", folderName := "ws", pixiTomlExists := false,
    pyprojectTomlExists := false, infoOutcome := InfoOutcome.ok none,
    platform := HostPlatform.linux, vscodeDirExists := true, pixiActivateExists := true }

/-- Concrete folder input: manifest present and a fully successful setup
run on Linux. -/
def successFolderInput : FolderInput :=
  { folderPath := "/ws", folderName := "ws", pixiTomlExists := true,
    pyprojectTomlExists := false,
    infoOutcome := InfoOutcome.ok (some { environments_info := some [{ name := "default", pfx := some "/ws/.pixi/envs/default" }] }),
    platform := HostPlatform.linux, vscodeDirExists := true, pixiActivateExists := true }

/-- Concrete wrapper-script input on a POSIX platform. -/
def posixWrapperInput : WrapperInput :=
  { workspacePath := "/ws", envName := "default", pfx := "/ws/.pixi/envs/default",
    isWindows := false, vscodeDirExists := true, pixiTomlExists := true,
    pixiActivateExists := true }

/-- Concrete wrapper-script input on Windows. -/
def winWrapperInput : WrapperInput :=
  { workspacePath := "/ws", envName := "default", pfx := "/ws/.pixi/envs/default",
    isWindows := true, vscodeDirExists := true, pixiTomlExists := true,
    pixiActivateExists := true }

theorem leadsWith_refl_append (p t : List Char) : leadsWith p (p ++ t) = true := by
  induction p with
  | nil => rfl
  | cons c cs ih => simp [leadsWith, ih]

theorem occursInL_cons_of (p : List Char) (c : Char) (cs : List Char)
    (h : occursInL p cs = true) : occursInL p (c :: cs) = true := by
  simp [occursInL, h]

theorem occursInL_append_left (p a b : List Char)
    (h : occursInL p b = true) : occursInL p (a ++ b) = true := by
  induction a with
  | nil => simpa using h
  | cons c cs ih => exact occursInL_cons_of _ _ _ ih

theorem occursInL_self_append (p t : List Char) : occursInL p (p ++ t) = true := by
  cases p with
  | nil => cases t <;> simp [occursInL, leadsWith]
  | cons c cs =>
    simp only [occursInL, Bool.or_eq_true]
    exact Or.inl (by simpa using leadsWith_refl_append (c :: cs) t)

theorem leadsWith_split (p a b : List Char) (x : Char)
    (hx : x ∉ p) (h : leadsWith p (a ++ x :: b) = true) : leadsWith p a = true := by
  induction p generalizing a with
  | nil => rfl
  | cons q ps ih =>
    cases a with
    | nil =>
      simp only [List.nil_append, leadsWith, Bool.and_eq_true, beq_iff_eq] at h
      exact absurd (h.1 ▸ List.mem_cons_self q ps) hx
    | cons c cs =>
      simp only [List.cons_append, leadsWith, Bool.and_eq_true] at h ⊢
      exact ⟨h.1, ih cs (fun hm => hx (List.mem_cons_of_mem q hm)) h.2⟩

theorem occursInL_split (p a b : List Char) (x : Char)
    (hx : x ∉ p) (h : occursInL p (a ++ x :: b) = true) :
    occursInL p a = true ∨ occursInL p b = true := by
  induction a with
  | nil =>
    simp only [List.nil_append, occursInL, Bool.or_eq_true] at h
    rcases h with h | h
    · cases p with
      | nil => exact Or.inl rfl
      | cons q ps =>
        simp only [leadsWith, Bool.and_eq_true, beq_iff_eq] at h
        exact absurd (h.1 ▸ List.mem_cons_self q ps) hx
    · exact Or.inr h
  | cons c cs ih =>
    simp only [List.cons_append, occursInL, Bool.or_eq_true] at h
    rcases h with h | h
    · have : leadsWith p (c :: cs) = true := by
        have := leadsWith_split p (c :: cs) b x hx (by simpa using h)
        exact this
      exact Or.inl (by simp [occursInL, this])
    · rcases ih h with h' | h'
      · exact Or.inl (occursInL_cons_of _ _ _ h')
      · exact Or.inr h'

/-! Section: Claims about the preview supervisor -/

/-- C1: at most one live preview process handle is tracked at any time
(the supervisor state holds a single optional handle); when a preview
request arrives while a handle is tracked, the existing process is sent
SIGINT and the tracked handle is cleared before the newly spawned process
becomes the tracked instance: the kill effect precedes the spawn effect,
the intermediate state is untracked, and the final state tracks the new
process. -/
theorem preview_single_instance_supersede (s : PreviewState) (p : Nat)
    (h : s.tracked = some p) :
    (killExisting s).1.tracked = none ∧
    (previewRequest true s).2
      = [PreviewEffect.logLine "Killing existing preview process...",
         PreviewEffect.kill p "SIGINT", PreviewEffect.spawnProc s.nextPid] ∧
    (previewRequest true s).1.tracked = some s.nextPid := by
  rcases s with ⟨tr, np⟩
  simp only at h
  subst h
  simp [killExisting, previewRequest, spawnPreview]

/-- Witness for C1 at a concrete state tracking process 5. -/
theorem preview_single_instance_supersede_witness :
    (killExisting ⟨some 5, 6⟩).1.tracked = none ∧
    (previewRequest true ⟨some 5, 6⟩).2
      = [PreviewEffect.logLine "Killing existing preview process...",
         PreviewEffect.kill 5 "SIGINT", PreviewEffect.spawnProc 6] ∧
    (previewRequest true ⟨some 5, 6⟩).1.tracked = some 6 :=
  preview_single_instance_supersede ⟨some 5, 6⟩ 5 rfl

/-- C2, counterexample: the claim says a process error at spawn/runtime
clears the tracked handle (Running to Idle), but the `error` handler only
logs: with process 0 tracked, after the error event the handle still
tracks process 0. -/
theorem preview_error_keeps_handle_cex :
    (previewOnError { tracked := some 0, nextPid := 1 } "spawn ENOENT").1.tracked = some 0
    ∧ (previewOnError { tracked := some 0, nextPid := 1 } "spawn ENOENT").1.tracked ≠ none := by
  exact ⟨rfl, by simp [previewOnError]⟩

/-- C2 as amended: the supervisor transitions Running to Idle when the
process closes (any exit code) and when a new preview request arrives
(the handle is cleared before the respawn); a process error event only
logs and leaves the tracked handle unchanged. -/
theorem preview_running_to_idle_amended (s : PreviewState) (code : Int)
    (msg : String) (p : Nat) (h : s.tracked = some p) :
    (previewOnClose s code).1.tracked = none ∧
    (killExisting s).1.tracked = none ∧
    (previewRequest true s).1.tracked = some s.nextPid ∧
    (previewOnError s msg).1.tracked = some p := by
  rcases s with ⟨tr, np⟩
  simp only at h
  subst h
  simp [previewOnClose, killExisting, previewRequest, spawnPreview, previewOnError]

/-- Witness for the amended C2 at a concrete state tracking process 3. -/
theorem preview_running_to_idle_amended_witness :
    (previewOnClose ⟨some 3, 4⟩ (-2)).1.tracked = none ∧
    (killExisting ⟨some 3, 4⟩).1.tracked = none ∧
    (previewRequest true ⟨some 3, 4⟩).1.tracked = some 4 ∧
    (previewOnError ⟨some 3, 4⟩ "boom").1.tracked = some 3 :=
  preview_running_to_idle_amended ⟨some 3, 4⟩ (-2) "boom" 3 rfl

/-! Section: Claim about preview output handling -/

theorem foldl_handleOutput_opened (chunks : List String) (st : OutputState)
    (h : st.browserOpened = true) :
    (chunks.foldl handleOutput st).opens = st.opens := by
  induction chunks generalizing st with
  | nil => rfl
  | cons c cs ih =>
    have hstep : handleOutput st c
        = { st with logText := st.logText ++ previewChunkToLog c } := by
      simp [handleOutput, h]
    rw [List.foldl_cons, hstep, ih _ (by simpa using h)]

theorem foldl_handleOutput_unopened (chunks : List String) (st : OutputState)
    (h : st.browserOpened = false) :
    (chunks.foldl handleOutput st).opens
      = st.opens
        ++ (chunks.filterMap fun c => findLoopbackUrl (previewChunkToLog c)).take 1 := by
  induction chunks generalizing st with
  | nil => simp
  | cons c cs ih =>
    rw [List.foldl_cons, List.filterMap_cons]
    cases hf : findLoopbackUrl (previewChunkToLog c) with
    | none =>
      have hstep : handleOutput st c
          = { st with logText := st.logText ++ previewChunkToLog c } := by
        simp [handleOutput, h, hf]
      rw [hstep]
      simpa using ih _ (by simpa using h)
    | some url =>
      have hopen : (handleOutput st c).browserOpened = true := by
        simp [handleOutput, h, hf]
      have hopens : (handleOutput st c).opens = st.opens ++ [url] := by
        simp [handleOutput, h, hf]
      rw [foldl_handleOutput_opened cs _ hopen, hopens]
      simp

/-- C3: for every sequence of output chunks of one preview process
instance, the embedded-browser-open calls are exactly the loopback URL of
the first chunk whose sanitized form contains one: one call for the first
URL-bearing chunk, none for any later chunk. -/
theorem preview_browser_opens_once (chunks : List String) :
    (processChunks chunks).opens
      = (chunks.filterMap fun c => findLoopbackUrl (previewChunkToLog c)).take 1 := by
  simpa [initialOutputState]
    using foldl_handleOutput_unopened chunks initialOutputState rfl

/-! Section: Claim about environment selection -/

/-- C4: on a nonempty environment list, the resolver selects a record
named `default` whenever one exists, regardless of position; when no
record is named `default` it selects the first element. -/
theorem selectEnv_default_or_first (e : EnvRecord) (es : List EnvRecord) :
    ((e :: es).any (fun r => r.name == "default") = true →
      (selectEnv e es).name = "default") ∧
    ((e :: es).all (fun r => !(r.name == "default")) = true →
      selectEnv e es = e) := by
  constructor
  · intro h
    cases hf : (e :: es).find? (fun r => r.name == "default") with
    | none =>
      rw [List.find?_eq_none] at hf
      rcases List.any_eq_true.mp h with ⟨x, hx, hpx⟩
      exact absurd hpx (by simpa using hf x hx)
    | some r =>
      have hr := List.find?_some hf
      simp only [selectEnv, hf]
      simpa using hr
  · intro h
    cases hf : (e :: es).find? (fun r => r.name == "default") with
    | none => simp [selectEnv, hf]
    | some r =>
      have hr := List.find?_some hf
      have hmem := List.mem_of_find?_eq_some hf
      have hall := List.all_eq_true.mp h r hmem
      simp only [Bool.not_eq_true'] at hall
      rw [hall] at hr
      exact absurd hr (by simp)

/-- Witness for C4: a `default` record in second position is selected;
with no `default` record the first element is selected. -/
theorem selectEnv_default_or_first_witness :
    (selectEnv { name := "alpha", pfx := some "/envs/a" }
      [{ name := "default", pfx := some "/envs/d" }]).name = "default" ∧
    selectEnv { name := "alpha", pfx := some "/envs/a" }
      [{ name := "beta", pfx := none }]
      = { name := "alpha", pfx := some "/envs/a" } :=
  ⟨(selectEnv_default_or_first _ _).1 (by decide),
   (selectEnv_default_or_first _ _).2 (by decide)⟩

/-! Section: Claims about the setup effects -/

/-- C5: when the selected environment record has no usable prefix (field
absent or empty, i.e. falsy), setup aborts with the "no prefix" error log
and performs no file writes and no settings updates for that folder. -/
theorem setup_no_prefix_aborts (i : FolderInput) (e : EnvRecord)
    (es : List EnvRecord) (pinfo : PixiInfo)
    (hman : (i.pixiTomlExists || i.pyprojectTomlExists) = true)
    (hinfo : i.infoOutcome = InfoOutcome.ok (some pinfo))
    (henvs : pinfo.environments_info = some (e :: es))
    (hpfx : truthyStr (selectEnv e es).pfx = false) :
    (setupFolder i).filter isWriteEffect = [] ∧
    (setupFolder i).filter isSettingsEffect = [] ∧
    Effect.logLine ("Error: No prefix found for environment " ++ (selectEnv e es).name)
      ∈ setupFolder i := by
  have hlist : setupFolder i
      = [Effect.logLine ("Checking for pixi.toml or pyproject.toml at: " ++ i.folderPath),
         Effect.logLine ("Found Pixi manifest in " ++ i.folderName),
         Effect.logLine ("Executing \x27pixi info --json\x27 in " ++ i.folderPath),
         Effect.logLine ("Error: No prefix found for environment " ++ (selectEnv e es).name)] := by
    simp [setupFolder, hman, hinfo, henvs, hpfx]
  rw [hlist]
  exact ⟨rfl, rfl, by simp⟩

/-- Witness for C5 at a concrete folder whose single environment has an
empty prefix. -/
theorem setup_no_prefix_aborts_witness :
    (setupFolder noPrefixFolderInput).filter isWriteEffect = [] ∧
    (setupFolder noPrefixFolderInput).filter isSettingsEffect = [] ∧
    Effect.logLine ("Error: No prefix found for environment "
        ++ (selectEnv { name := "default", pfx := some "" } []).name)
      ∈ setupFolder noPrefixFolderInput :=
  setup_no_prefix_aborts noPrefixFolderInput { name := "default", pfx := some "" } []
    { environments_info := some [{ name := "default", pfx := some "" }] }
    (by decide) rfl rfl (by decide)

/-- C8: for a workspace folder in which neither manifest marker file
exists, setup produces no file writes (in particular no wrapper scripts)
and no settings updates. -/
theorem setup_no_manifest_no_effects (i : FolderInput)
    (h1 : i.pixiTomlExists = false) (h2 : i.pyprojectTomlExists = false) :
    (setupFolder i).filter isWriteEffect = [] ∧
    (setupFolder i).filter isSettingsEffect = [] := by
  have hlist : setupFolder i
      = [Effect.logLine ("Checking for pixi.toml or pyproject.toml at: " ++ i.folderPath),
         Effect.logLine ("No pixi.toml found in " ++ i.folderName)] := by
    simp [setupFolder, h1, h2]
  rw [hlist]
  exact ⟨rfl, rfl⟩

/-- Witness for C8 at a concrete folder without manifests. -/
theorem setup_no_manifest_no_effects_witness :
    (setupFolder noManifestFolderInput).filter isWriteEffect = [] ∧
    (setupFolder noManifestFolderInput).filter isSettingsEffect = [] :=
  setup_no_manifest_no_effects noManifestFolderInput rfl rfl

theorem createWrapper_settings_ok (w : WrapperInput) :
    ((createWrapperScripts w).1).all settingsTargetOk = true := by
  rcases w with ⟨ws, env, px, iw, vde, pte, pae⟩
  cases iw <;> cases vde <;> cases pae <;> rfl

theorem configure_settings_ok (p : HostPlatform) (r t q : String) :
    (configureWorkspaceSettings p r t q).all settingsTargetOk = true := by
  cases p <;> rfl

theorem success_settings_ok (i : FolderInput) (env : EnvRecord) (v : String) :
    (successEffects i env v).all settingsTargetOk = true := by
  simp [successEffects, List.all_append, createWrapper_settings_ok,
    configure_settings_ok, settingsTargetOk]

/-- C10: every configuration update performed anywhere in the setup path
targets the Workspace configuration target; user-level (Global) settings
are never modified. -/
theorem settings_updates_workspace_only (i : FolderInput) :
    (setupFolder i).all settingsTargetOk = true := by
  rcases i with ⟨fp, fn, pte, pye, io, plat, vde, pae⟩
  cases pte <;> cases pye <;>
    simp only [setupFolder, Bool.or_self, Bool.or_true, Bool.true_or,
      if_true, if_false, Bool.false_or] <;>
  first
  | rfl
  | (cases io with
     | execError m st =>
       cases hst : (st == "") <;>
         simp [hst, List.all_append, settingsTargetOk]
     | parseError so m => rfl
     | ok info =>
       rcases info with _ | ⟨ei⟩
       · rfl
       · rcases ei with _ | ⟨_ | ⟨e, es⟩⟩
         · rfl
         · rfl
         · simp only []
           cases ht : truthyStr (selectEnv e es).pfx <;>
             simp [ht, success_settings_ok, settingsTargetOk])

/-! Section: Claims about output sanitization and the render command -/

/-- C6, counterexample: the claim says every chunk of the render process's
combined stdout/stderr is stripped of ANSI sequences and of non-ASCII
characters, but a stdout chunk only gets ANSI stripping (line 192): the
chunk `ESC[2A─` (cursor-up sequence followed by the box-drawing character
U+2500) is appended to the log with the box-drawing character intact. -/
theorem render_stdout_keeps_non_ascii_cex :
    renderStdoutChunkToLog "\u001b[2A─" = "─" ∧
    (("─" : String).data.all fun c => c.toNat ≤ 0x7F) = false := by
  exact ⟨by decide, by decide⟩

theorem clean_char_ascii (c : Char) :
    ((if c.toNat ≤ 0x7F then c else ' ').toNat ≤ 0x7F) = true := by
  by_cases h : c.toNat ≤ 0x7F
  · simp [h]
  · simp only [h, if_false]
    decide

theorem cleanNonAscii_all_ascii (s : String) :
    ((cleanNonAscii s).data.all fun c => c.toNat ≤ 0x7F) = true := by
  simp only [cleanNonAscii, List.all_map]
  rw [List.all_eq_true]
  intro c _
  simpa using clean_char_ascii c

/-- C6 as amended: stderr chunks of the render/install commands and every
preview chunk are stripped of ANSI escape sequences and have every
non-ASCII character replaced by a space (so the logged text is pure
ASCII); stdout chunks of the render/install commands are only stripped of
ANSI escape sequences.  In particular a stderr or preview chunk containing
an ANSI cursor-movement sequence followed by a box-drawing character is
logged with the escape removed and the box character replaced by a
space. -/
theorem sanitized_chunks_amended (s : String) :
    ((renderStderrChunkToLog s).data.all fun c => c.toNat ≤ 0x7F) = true ∧
    ((previewChunkToLog s).data.all fun c => c.toNat ≤ 0x7F) = true ∧
    previewChunkToLog "\u001b[2A─" = " " ∧
    renderStderrChunkToLog "\u001b[2A─" = " " ∧
    renderStdoutChunkToLog "\u001b[2A─" = "─" :=
  ⟨cleanNonAscii_all_ascii (stripAnsi s), cleanNonAscii_all_ascii (stripAnsi s),
   by decide, by decide, by decide⟩

/-- C7: with a supplied format the render command line contains `--to `
followed by that format; with no format, and wrapper/document paths that
do not themselves contain `--to`, the command line contains no `--to` at
all. -/
theorem render_to_flag (w d f : String) :
    occursIn ("--to " ++ f) (renderCommand w d (some f)) = true ∧
    (occursIn "--to" w = false → occursIn "--to" d = false →
      occursIn "--to" (renderCommand w d none) = false) := by
  constructor
  · show occursInL ("--to " ++ f).data (renderCommand w d (some f)).data = true
    simp only [renderCommand, String.data_append, List.append_assoc,
      show (" --to " : String).data = ' ' :: ("--to " : String).data from rfl,
      List.cons_append]
    apply occursInL_append_left
    apply occursInL_append_left
    apply occursInL_append_left
    apply occursInL_append_left
    apply occursInL_append_left
    apply occursInL_cons_of
    simpa using occursInL_self_append (("--to " : String).data ++ f.data) []
  · intro h1 h2
    have h1' : occursInL ("--to" : String).data w.data = false := h1
    have h2' : occursInL ("--to" : String).data d.data = false := h2
    rcases Bool.eq_false_or_eq_true (occursIn "--to" (renderCommand w d none)) with hb | hb
    swap
    · exact hb
    · exfalso
      have hb' : occursInL ("--to" : String).data
          ((('"' :: w.data)
            ++ '"' :: ([' ', 'r', 'e', 'n', 'd', 'e', 'r', ' ']
              ++ ('"' :: (d.data ++ ['"']))))) = true := by
        have hb0 : occursInL ("--to" : String).data (renderCommand w d none).data = true := hb
        simp only [renderCommand, String.append_empty, String.data_append] at hb0
        simpa [List.cons_append, List.append_assoc,
          show ("\"" : String).data = ['"'] from rfl,
          show ("\" render \"" : String).data
            = ['"', ' ', 'r', 'e', 'n', 'd', 'e', 'r', ' ', '"'] from rfl] using hb0
      rcases occursInL_split _ _ _ '"' (by decide) hb' with h | h
      · rcases occursInL_split ("--to" : String).data [] w.data '"' (by decide)
          (by simpa using h) with h' | h'
        · simp [show occursInL ("--to" : String).data [] = false from by decide] at h'
        · simp [h1'] at h'
      · rcases occursInL_split ("--to" : String).data
          [' ', 'r', 'e', 'n', 'd', 'e', 'r', ' '] (d.data ++ ['"']) '"' (by decide) h
          with h' | h'
        · simp [show occursInL ("--to" : String).data
            [' ', 'r', 'e', 'n', 'd', 'e', 'r', ' '] = false from by decide] at h'
        · rcases occursInL_split ("--to" : String).data d.data [] '"' (by decide)
            (by simpa using h') with h'' | h''
          · simp [h2'] at h''
          · simp [show occursInL ("--to" : String).data [] = false from by decide] at h''

/-- Witness for C7 at a concrete wrapper path, document and format. -/
theorem render_to_flag_witness :
    occursIn ("--to " ++ "pdf")
      (renderCommand "/ws/.vscode/quarto-pixi-wrapper.sh" "/ws/doc.qmd" (some "pdf"))
      = true ∧
    occursIn "--to"
      (renderCommand "/ws/.vscode/quarto-pixi-wrapper.sh" "/ws/doc.qmd" none) = false :=
  ⟨(render_to_flag "/ws/.vscode/quarto-pixi-wrapper.sh" "/ws/doc.qmd" "pdf").1,
   (render_to_flag "/ws/.vscode/quarto-pixi-wrapper.sh" "/ws/doc.qmd" "pdf").2
     (by decide) (by decide)⟩

/-- C9: each generated wrapper script is a single fixed-argument
re-invocation of the environment manager's `run` subcommand with the
manifest path and environment name, followed by argument forwarding:
`"$@"` in the POSIX shell scripts, `%*` in the Windows batch scripts. -/
theorem wrapper_scripts_shape (w : WrapperInput) :
    (w.isWindows = false →
      Effect.fileWrite (rTermWrapperPathOf w)
          (specPosixWrapper (manifestChoice w) w.envName "R")
        ∈ (createWrapperScripts w).1 ∧
      Effect.fileWrite (quartoWrapperPathOf w)
          (specPosixWrapper (manifestChoice w) w.envName "quarto")
        ∈ (createWrapperScripts w).1) ∧
    (w.isWindows = true →
      Effect.fileWrite (rTermWrapperPathOf w)
          (specWinWrapper (manifestChoice w) w.envName "R")
        ∈ (createWrapperScripts w).1 ∧
      Effect.fileWrite (quartoWrapperPathOf w)
          (specWinWrapper (manifestChoice w) w.envName "quarto")
        ∈ (createWrapperScripts w).1) := by
  have hpR : ∀ m env : String,
      specPosixWrapper m env "R"
        = "#!/bin/sh\nexec pixi run --manifest-path \"" ++ m ++ "\" -e " ++ env
            ++ " R \"$@\"" := by
    intro m env
    unfold specPosixWrapper
    exact congrArg (("#!/bin/sh\nexec pixi run --manifest-path \"" ++ m ++ "\" -e " ++ env)
      ++ ·) (by decide)
  have hpQ : ∀ m env : String,
      specPosixWrapper m env "quarto"
        = "#!/bin/sh\nexec pixi run --manifest-path \"" ++ m ++ "\" -e " ++ env
            ++ " quarto \"$@\"" := by
    intro m env
    unfold specPosixWrapper
    exact congrArg (("#!/bin/sh\nexec pixi run --manifest-path \"" ++ m ++ "\" -e " ++ env)
      ++ ·) (by decide)
  have hwR : ∀ m env : String,
      specWinWrapper m env "R"
        = "@echo off\npixi run --manifest-path \"" ++ m ++ "\" -e " ++ env ++ " R %*" := by
    intro m env
    unfold specWinWrapper
    exact congrArg (("@echo off\npixi run --manifest-path \"" ++ m ++ "\" -e " ++ env)
      ++ ·) (by decide)
  have hwQ : ∀ m env : String,
      specWinWrapper m env "quarto"
        = "@echo off\npixi run --manifest-path \"" ++ m ++ "\" -e " ++ env
            ++ " quarto %*" := by
    intro m env
    unfold specWinWrapper
    exact congrArg (("@echo off\npixi run --manifest-path \"" ++ m ++ "\" -e " ++ env)
      ++ ·) (by decide)
  constructor
  · intro hwin
    rw [hpR, hpQ]
    constructor <;>
      simp [createWrapperScripts, hwin, List.mem_append]
  · intro hwin
    rw [hwR, hwQ]
    constructor <;>
      simp [createWrapperScripts, hwin, List.mem_append]

/-- Witness for C9: both wrapper templates at concrete POSIX and Windows
inputs. -/
theorem wrapper_scripts_shape_witness :
    (Effect.fileWrite (rTermWrapperPathOf posixWrapperInput)
        (specPosixWrapper (manifestChoice posixWrapperInput) "default" "R")
      ∈ (createWrapperScripts posixWrapperInput).1) ∧
    (Effect.fileWrite (quartoWrapperPathOf winWrapperInput)
        (specWinWrapper (manifestChoice winWrapperInput) "default" "quarto")
      ∈ (createWrapperScripts winWrapperInput).1) :=
  ⟨((wrapper_scripts_shape posixWrapperInput).1 rfl).1,
   ((wrapper_scripts_shape winWrapperInput).2 rfl).2⟩
